import Mathlib

/-!
Shallow embedding of `src/index.js` of the cat-facts async/await lab.

The script declares a constant `baseUrl` and three async functions
(`getRandomFact`, `getMultipleFacts`, `getCatBreeds`); each wraps one
`fetch` + `response.json()` pair in a `try { ... } catch (error) { ... }`
and prints to the console.

The network is modelled as an oracle `net : String → FetchOutcome` mapping
a request URL to what the platform primitives deliver: either the `fetch`
promise rejects (transport failure), or a response arrives with a status
code and a body; `response.json()` on that body either rejects with a parse
error message (body not valid JSON) or resolves with a JSON value.  Each
function is embedded as a pure function from the oracle to the list of
console lines it emits, paired with the error (if any) that would escape
the async function uncaught — the observable behaviour of the script.
-/

namespace CatFacts

/-- A JSON value, as produced by a successful `response.json()`. -/
inductive Json where
  | null : Json
  | bool (b : Bool) : Json
  | num (n : Int) : Json
  | str (s : String) : Json
  | arr (elems : List Json) : Json
  | obj (fields : List (String × Json)) : Json
  deriving Repr

/-- The result of reading a property of a JS value: the property may be
absent (`undefined`) or hold a JSON value. -/
inductive JsValue where
  | undefined : JsValue
  | val (j : Json) : JsValue
  deriving Repr

/-- A JS error value reaching a `catch` block: rejection of `fetch`
(transport failure), rejection of `response.json()` (syntax error from the
JSON parser), or a `TypeError` thrown by a property access / method call. -/
inductive JsError where
  | fetchError (msg : String) : JsError
  | syntaxError (msg : String) : JsError
  | typeError (msg : String) : JsError
  deriving Repr

/-- What `response.json()` does for the received body: reject with the
parser's message (body is not valid JSON) or resolve with the decoded
value. -/
inductive BodyContent where
  | malformed (errMsg : String) : BodyContent
  | jsonVal (j : Json) : BodyContent
  deriving Repr

/-- The outcome of one `fetch(url)`: the promise rejects before a response
is received (DNS failure, connection refused, timeout), or a response
arrives with an HTTP status code and a body. -/
inductive FetchOutcome where
  | netError (msg : String) : FetchOutcome
  | response (status : Nat) (body : BodyContent) : FetchOutcome
  deriving Repr

/-- One line of console output: `console.log` of a literal string,
`console.log` of a computed JS value, or `console.error(label, error)`. -/
inductive ConsoleLine where
  | log (s : String) : ConsoleLine
  | logVal (v : JsValue) : ConsoleLine
  | errorLog (label : String) (e : JsError) : ConsoleLine
  deriving Repr

/-- Property access `j.k` on a decoded JSON value: on an object it looks the
key up (absent key gives `undefined`), on `null` it throws a `TypeError`,
and on any other value it yields `undefined`. -/
def getField : Json → String → Except JsError JsValue
  | .null, k =>
      .error (.typeError ("Cannot read properties of null (reading " ++ k ++ ")"))
  | .obj fields, k =>
      match fields.lookup k with
      | some j => .ok (.val j)
      | none => .ok .undefined
  | _, _ => .ok .undefined

/-- Method call `v.forEach(...)`: only an array value supplies the iteration;
`undefined` and `null` throw a `TypeError` on the property read, and every
other value throws because its `forEach` is not a function. -/
def getForEachArray : JsValue → Except JsError (List Json)
  | .undefined =>
      .error (.typeError "Cannot read properties of undefined (reading forEach)")
  | .val .null =>
      .error (.typeError "Cannot read properties of null (reading forEach)")
  | .val (.arr xs) => .ok xs
  | .val _ => .error (.typeError "forEach is not a function")

mutual

/-- String interpolation of a JSON value in a template literal
(`${...}`), following JS `ToString`. -/
def jsonTemplateStr : Json → String
  | .null => "null"
  | .bool b => cond b "true" "false"
  | .num n => toString n
  | .str s => s
  | .arr xs => jsonArrJoin xs
  | .obj _ => "[object Object]"

/-- `Array.prototype.toString`: elements joined with commas. -/
def jsonArrJoin : List Json → String
  | [] => ""
  | [x] => jsonArrElem x
  | x :: y :: xs => jsonArrElem x ++ "," ++ jsonArrJoin (y :: xs)

/-- An element inside an array being stringified: `null` renders empty. -/
def jsonArrElem : Json → String
  | .null => ""
  | .bool b => cond b "true" "false"
  | .num n => toString n
  | .str s => s
  | .arr xs => jsonArrJoin xs
  | .obj _ => "[object Object]"

end

/-- String interpolation of a possibly-`undefined` JS value in a template
literal. -/
def jsTemplateStr : JsValue → String
  | .undefined => "undefined"
  | .val j => jsonTemplateStr j

/-- What `console.log(v)` displays for the values this program prints:
`undefined` displays as the string `undefined`, a string displays as
itself, and other values follow their JS string conversion. -/
def consoleDisplay : JsValue → String
  | .undefined => "undefined"
  | .val j => jsonTemplateStr j

/-- The `catch (error)` block around each function body: an error escaping
the `try` body is logged with the function's label and does not propagate;
console output already produced is kept. -/
def catchWith (label : String) : List ConsoleLine × Option JsError → List ConsoleLine × Option JsError
  | (logs, none) => (logs, none)
  | (logs, some e) => (logs ++ [.errorLog label e], none)

/-- `const baseUrl = "https://catfact.ninja";` (src/index.js line 4). -/
def baseUrl : String := "https://catfact.ninja"

/-- `console.log("Base URL set up for CatFacts API:", baseUrl);`
(src/index.js line 6). -/
def bannerLine : ConsoleLine := .log ("Base URL set up for CatFacts API: " ++ baseUrl)

/-- The URL requested by `getRandomFact`: the template literal
`${baseUrl}/fact` (src/index.js line 11). -/
def randomFactUrl : String := baseUrl ++ "/fact"

/-- The `try` body of `getRandomFact` (src/index.js lines 10-14): fetch,
decode, log the header, then log `data.fact`. -/
def getRandomFactTry (net : String → FetchOutcome) : List ConsoleLine × Option JsError :=
  match net randomFactUrl with
  | .netError msg => ([], some (.fetchError msg))
  | .response _status body =>
      match body with
      | .malformed msg => ([], some (.syntaxError msg))
      | .jsonVal data =>
          match getField data "fact" with
          | .error e => ([.log "Random Cat Fact:"], some e)
          | .ok v => ([.log "Random Cat Fact:", .logVal v], none)

/-- `getRandomFact` (src/index.js lines 9-18): the `try` body wrapped in
`catch`, which logs `"Error fetching random cat fact:"` with the error. -/
def getRandomFact (net : String → FetchOutcome) : List ConsoleLine × Option JsError :=
  catchWith "Error fetching random cat fact:" (getRandomFactTry net)

/-- `const numberOfFacts = 3;` (src/index.js line 25). -/
def numberOfFacts : Nat := 3

/-- The URL requested by `getMultipleFacts`: the template literal
`${baseUrl}/facts?limit=${numberOfFacts}` (src/index.js line 27). -/
def multipleFactsUrl : String := baseUrl ++ "/facts?limit=" ++ toString numberOfFacts

/-- The `forEach` callback loop shared by `getMultipleFacts` and
`getCatBreeds` (src/index.js lines 30-32 and 46-48): for each element, log
`` `${index + 1}. ${element.field}` ``; a `TypeError` thrown by the
property access propagates out of `forEach`, keeping earlier lines. -/
def forEachFmt (field : String) : List Json → Nat → List ConsoleLine × Option JsError
  | [], _ => ([], none)
  | x :: xs, idx =>
      match getField x field with
      | .error e => ([], some e)
      | .ok v =>
          let line := toString (idx + 1) ++ ". " ++ jsTemplateStr v
          let rest := forEachFmt field xs (idx + 1)
          (.log line :: rest.1, rest.2)

/-- The `try` body of `getMultipleFacts` (src/index.js lines 26-32): fetch,
decode, log the header, then `data.data.forEach(...)` printing numbered
facts. -/
def getMultipleFactsTry (net : String → FetchOutcome) : List ConsoleLine × Option JsError :=
  match net multipleFactsUrl with
  | .netError msg => ([], some (.fetchError msg))
  | .response _status body =>
      match body with
      | .malformed msg => ([], some (.syntaxError msg))
      | .jsonVal data =>
          let header := "\n" ++ toString numberOfFacts ++ " Random Cat Facts:"
          match getField data "data" with
          | .error e => ([.log header], some e)
          | .ok dv =>
              match getForEachArray dv with
              | .error e => ([.log header], some e)
              | .ok xs =>
                  let body := forEachFmt "fact" xs 0
                  (.log header :: body.1, body.2)

/-- `getMultipleFacts` (src/index.js lines 24-36): the `try` body wrapped
in `catch`, which logs `"Error fetching multiple cat facts:"`. -/
def getMultipleFacts (net : String → FetchOutcome) : List ConsoleLine × Option JsError :=
  catchWith "Error fetching multiple cat facts:" (getMultipleFactsTry net)

/-- The URL requested by `getCatBreeds`: the template literal
`${baseUrl}/breeds` (src/index.js line 43). -/
def breedsUrl : String := baseUrl ++ "/breeds"

/-- The `try` body of `getCatBreeds` (src/index.js lines 42-48): fetch,
decode, log the header, then `data.data.forEach(...)` printing numbered
breeds. -/
def getCatBreedsTry (net : String → FetchOutcome) : List ConsoleLine × Option JsError :=
  match net breedsUrl with
  | .netError msg => ([], some (.fetchError msg))
  | .response _status body =>
      match body with
      | .malformed msg => ([], some (.syntaxError msg))
      | .jsonVal data =>
          match getField data "data" with
          | .error e => ([.log "\nList of Cat Breeds:"], some e)
          | .ok dv =>
              match getForEachArray dv with
              | .error e => ([.log "\nList of Cat Breeds:"], some e)
              | .ok xs =>
                  let body := forEachFmt "breed" xs 0
                  (.log "\nList of Cat Breeds:" :: body.1, body.2)

/-- `getCatBreeds` (src/index.js lines 41-52): the `try` body wrapped in
`catch`, which logs `"Error fetching cat breeds:"`. -/
def getCatBreeds (net : String → FetchOutcome) : List ConsoleLine × Option JsError :=
  catchWith "Error fetching cat breeds:" (getCatBreedsTry net)

/-- The `catch` wrapper never lets an error escape: its second component is
always `none`. -/
theorem catchWith_snd (label : String) (p : List ConsoleLine × Option JsError) :
    (catchWith label p).2 = none := by
  obtain ⟨logs, err⟩ := p
  cases err <;> rfl

/-- Claim C2: for every possible outcome of the fetch and JSON-decode steps
(transport failure, rejected response, decode failure, or success), each of
`getRandomFact`, `getMultipleFacts` and `getCatBreeds` never raises an
uncaught error to its caller: the error component of each embedded run is
`none` for every network oracle, because every failure path is recovered by
the function's own `catch` block. -/
theorem claim2_no_uncaught_error (net1 net2 net3 : String → FetchOutcome) :
    (getRandomFact net1).2 = none ∧ (getMultipleFacts net2).2 = none ∧
      (getCatBreeds net3).2 = none :=
  ⟨catchWith_snd _ _, catchWith_snd _ _, catchWith_snd _ _⟩

/-- Witness for C2 at a concrete oracle. -/
theorem claim2_no_uncaught_error_witness :
    (getRandomFact fun _ => .netError "connection refused").2 = none :=
  (claim2_no_uncaught_error (fun _ => .netError "connection refused")
    (fun _ => .netError "connection refused")
    (fun _ => .netError "connection refused")).1

/-- Claim C3: for every response whose body is not valid JSON (any status
code, including 2xx), `getRandomFact` ends in the error branch — the `catch`
handler logs the parse error message — and produces none of the success
output. -/
theorem claim3_malformed_body_error_branch (net : String → FetchOutcome)
    (status : Nat) (msg : String)
    (h : net randomFactUrl = .response status (.malformed msg)) :
    getRandomFact net =
      ([.errorLog "Error fetching random cat fact:" (.syntaxError msg)], none) := by
  unfold getRandomFact getRandomFactTry
  rw [h]
  rfl

/-- Witness for C3: a 200 response with a malformed body ends in the error
branch. -/
theorem claim3_malformed_body_error_branch_witness :
    getRandomFact (fun _ => .response 200 (.malformed "Unexpected token < in JSON")) =
      ([.errorLog "Error fetching random cat fact:"
        (.syntaxError "Unexpected token < in JSON")], none) :=
  claim3_malformed_body_error_branch
    (fun _ => .response 200 (.malformed "Unexpected token < in JSON")) 200
    "Unexpected token < in JSON" rfl

/-- Claim C4: for every 2xx response whose body is valid JSON of the shape
`\x7bfact: s\x7d`, `getRandomFact` takes the success path, logging the header and
then `data.fact`, whose console display is exactly the fact string `s`. -/
theorem claim4_success_2xx (net : String → FetchOutcome) (status : Nat) (s : String)
    (_h200 : 200 ≤ status) (_h299 : status ≤ 299)
    (h : net randomFactUrl = .response status (.jsonVal (.obj [("fact", .str s)]))) :
    getRandomFact net = ([.log "Random Cat Fact:", .logVal (.val (.str s))], none) ∧
      consoleDisplay (.val (.str s)) = s := by
  constructor
  · unfold getRandomFact getRandomFactTry
    rw [h]
    rfl
  · rfl

/-- Witness for C4: the spec's end-to-end scenario, a 200 response with body
`\x7b"fact": "Cats sleep 70% of their lives."\x7d`. -/
theorem claim4_success_2xx_witness :
    getRandomFact (fun _ => .response 200
        (.jsonVal (.obj [("fact", .str "Cats sleep 70% of their lives.")]))) =
      ([.log "Random Cat Fact:",
        .logVal (.val (.str "Cats sleep 70% of their lives."))], none) ∧
      consoleDisplay (.val (.str "Cats sleep 70% of their lives.")) =
        "Cats sleep 70% of their lives." :=
  claim4_success_2xx
    (fun _ => .response 200
      (.jsonVal (.obj [("fact", .str "Cats sleep 70% of their lives.")])))
    200 "Cats sleep 70% of their lives." (by decide) (by decide) rfl

/-- Claim C7: whenever the transport fails before a response is received,
each of the three operations ends in the error branch carrying the
underlying transport error message, and none of its success output is
produced. -/
theorem claim7_network_error :
    (∀ (net : String → FetchOutcome) (msg : String),
      net randomFactUrl = .netError msg →
      getRandomFact net =
        ([.errorLog "Error fetching random cat fact:" (.fetchError msg)], none)) ∧
    (∀ (net : String → FetchOutcome) (msg : String),
      net multipleFactsUrl = .netError msg →
      getMultipleFacts net =
        ([.errorLog "Error fetching multiple cat facts:" (.fetchError msg)], none)) ∧
    (∀ (net : String → FetchOutcome) (msg : String),
      net breedsUrl = .netError msg →
      getCatBreeds net =
        ([.errorLog "Error fetching cat breeds:" (.fetchError msg)], none)) := by
  refine ⟨?_, ?_, ?_⟩
  · intro net msg h
    unfold getRandomFact getRandomFactTry
    rw [h]
    rfl
  · intro net msg h
    unfold getMultipleFacts getMultipleFactsTry
    rw [h]
    rfl
  · intro net msg h
    unfold getCatBreeds getCatBreedsTry
    rw [h]
    rfl

/-- Witness for C7: a simulated connection-refused failure on each of the
three requests. -/
theorem claim7_network_error_witness :
    getRandomFact (fun _ => .netError "connect ECONNREFUSED") =
      ([.errorLog "Error fetching random cat fact:"
        (.fetchError "connect ECONNREFUSED")], none) ∧
    getMultipleFacts (fun _ => .netError "connect ECONNREFUSED") =
      ([.errorLog "Error fetching multiple cat facts:"
        (.fetchError "connect ECONNREFUSED")], none) ∧
    getCatBreeds (fun _ => .netError "connect ECONNREFUSED") =
      ([.errorLog "Error fetching cat breeds:"
        (.fetchError "connect ECONNREFUSED")], none) :=
  ⟨claim7_network_error.1 (fun _ => .netError "connect ECONNREFUSED")
      "connect ECONNREFUSED" rfl,
   claim7_network_error.2.1 (fun _ => .netError "connect ECONNREFUSED")
      "connect ECONNREFUSED" rfl,
   claim7_network_error.2.2 (fun _ => .netError "connect ECONNREFUSED")
      "connect ECONNREFUSED" rfl⟩

/-- Claim C9: when the fetch succeeds with a valid JSON object that has no
`fact` field, `getRandomFact` logs the header and then `data.fact`, which is
`undefined` and displays as the string `undefined`; no error is reported. -/
theorem claim9_missing_fact_field (net : String → FetchOutcome) (status : Nat)
    (fields : List (String × Json))
    (h : net randomFactUrl = .response status (.jsonVal (.obj fields)))
    (hmiss : fields.lookup "fact" = none) :
    getRandomFact net = ([.log "Random Cat Fact:", .logVal .undefined], none) ∧
      consoleDisplay .undefined = "undefined" := by
  constructor
  · unfold getRandomFact getRandomFactTry
    rw [h]
    simp only [getField, hmiss]
    rfl
  · rfl

/-- Witness for C9: a 200 response with body `\x7b\x7d` (no `fact` field). -/
theorem claim9_missing_fact_field_witness :
    getRandomFact (fun _ => .response 200 (.jsonVal (.obj []))) =
      ([.log "Random Cat Fact:", .logVal .undefined], none) ∧
      consoleDisplay .undefined = "undefined" :=
  claim9_missing_fact_field (fun _ => .response 200 (.jsonVal (.obj []))) 200 []
    rfl rfl

/-- Claim C1 is false of the code: `getRandomFact` never inspects the
status code, so a 404 response with a valid JSON body is decoded and
printed on the success path — no failure outcome of any kind is produced
and the decode step is invoked. -/
theorem claim1_counterexample :
    getRandomFact (fun _ => .response 404
        (.jsonVal (.obj [("fact", .str "All cats are liquids.")]))) =
      ([.log "Random Cat Fact:",
        .logVal (.val (.str "All cats are liquids."))], none) := rfl

/-- Claim C1 as amended: the code never checks the HTTP status code — any
two responses with the same body produce identical output from each of the
three operations, whatever their status codes; in particular a non-2xx
response is decoded exactly like a 2xx one. -/
theorem claim1_status_ignored :
    (∀ (s s' : Nat) (b : BodyContent) (net net' : String → FetchOutcome),
      net randomFactUrl = .response s b → net' randomFactUrl = .response s' b →
      getRandomFact net = getRandomFact net') ∧
    (∀ (s s' : Nat) (b : BodyContent) (net net' : String → FetchOutcome),
      net multipleFactsUrl = .response s b →
      net' multipleFactsUrl = .response s' b →
      getMultipleFacts net = getMultipleFacts net') ∧
    (∀ (s s' : Nat) (b : BodyContent) (net net' : String → FetchOutcome),
      net breedsUrl = .response s b → net' breedsUrl = .response s' b →
      getCatBreeds net = getCatBreeds net') := by
  refine ⟨?_, ?_, ?_⟩
  · intro s s' b net net' h h'
    unfold getRandomFact getRandomFactTry
    rw [h, h']
  · intro s s' b net net' h h'
    unfold getMultipleFacts getMultipleFactsTry
    rw [h, h']
  · intro s s' b net net' h h'
    unfold getCatBreeds getCatBreedsTry
    rw [h, h']

/-- Witness for the amended C1: a 404 and a 200 response with the same body
give the same output. -/
theorem claim1_status_ignored_witness :
    getRandomFact (fun _ => .response 404 (.jsonVal .null)) =
      getRandomFact (fun _ => .response 200 (.jsonVal .null)) :=
  claim1_status_ignored.1 404 200 (.jsonVal .null)
    (fun _ => .response 404 (.jsonVal .null))
    (fun _ => .response 200 (.jsonVal .null)) rfl rfl

/-- Claim C5: the URL requested by `getMultipleFacts` is exactly
`baseUrl ++ "/facts?limit=3"` with no extra characters, and the operation
consults the network only at that URL: two oracles agreeing there produce
identical runs. -/
theorem claim5_request_url :
    multipleFactsUrl = baseUrl ++ "/facts?limit=3" ∧
    ∀ (net net' : String → FetchOutcome),
      net multipleFactsUrl = net' multipleFactsUrl →
      getMultipleFacts net = getMultipleFacts net' := by
  refine ⟨rfl, ?_⟩
  intro net net' h
  unfold getMultipleFacts getMultipleFactsTry
  rw [h]

/-- Witness for C5: two oracles that agree only on the facts URL give the
same run. -/
theorem claim5_request_url_witness :
    getMultipleFacts (fun _ => .netError "refused") =
      getMultipleFacts (fun u => if u = multipleFactsUrl then .netError "refused"
        else .response 200 (.jsonVal .null)) :=
  claim5_request_url.2 (fun _ => .netError "refused")
    (fun u => if u = multipleFactsUrl then .netError "refused"
      else .response 200 (.jsonVal .null)) (by simp)

/-- The numbered lines the spec describes for the breeds scenario: element
`i` (counting from 0) is formatted as `(i+1) ++ ". " ++ breed`.  Written
from the claim's words, to be compared with the code's `forEach` loop. -/
def specNumberedLines : List String → Nat → List ConsoleLine
  | [], _ => []
  | n :: ns, i => .log (toString (i + 1) ++ ". " ++ n) :: specNumberedLines ns (i + 1)

/-- The code's `forEach` loop over breed objects produces exactly the
spec's 1-based numbered lines, from any starting index. -/
theorem forEachFmt_breed_objs (names : List String) (k : Nat) :
    forEachFmt "breed" (names.map fun n => Json.obj [("breed", Json.str n)]) k =
      (specNumberedLines names k, none) := by
  induction names generalizing k with
  | nil => rfl
  | cons n ns ih =>
      simp only [List.map_cons, forEachFmt]
      rw [show getField (Json.obj [("breed", Json.str n)]) "breed" =
        .ok (.val (.str n)) from rfl]
      simp [specNumberedLines, ih, jsTemplateStr, jsonTemplateStr]

/-- Claim C6: a decoded breeds response whose `data` field is the two-element
breeds array yields exactly the lines `1. Abyssinian` and `2. Aegean` after
the header; in general, the code's iteration formats element `i` (from 0)
as `(i+1) ++ ". " ++ element.breed`, matching `specNumberedLines`. -/
theorem claim6_breeds_numbering :
    (∀ (net : String → FetchOutcome) (status : Nat)
      (fields : List (String × Json)),
      net breedsUrl = .response status (.jsonVal (.obj fields)) →
      fields.lookup "data" = some (.arr
        [.obj [("breed", .str "Abyssinian")], .obj [("breed", .str "Aegean")]]) →
      getCatBreeds net = ([.log "\nList of Cat Breeds:",
        .log "1. Abyssinian", .log "2. Aegean"], none)) ∧
    (∀ (names : List String) (k : Nat),
      forEachFmt "breed" (names.map fun n => Json.obj [("breed", Json.str n)]) k =
        (specNumberedLines names k, none)) := by
  refine ⟨?_, forEachFmt_breed_objs⟩
  intro net status fields h hdata
  unfold getCatBreeds getCatBreedsTry
  rw [h]
  simp only [getField, hdata]
  rfl

/-- Witness for C6: the spec's end-to-end breeds scenario. -/
theorem claim6_breeds_numbering_witness :
    getCatBreeds (fun _ => .response 200 (.jsonVal (.obj [("data", .arr
        [.obj [("breed", .str "Abyssinian")], .obj [("breed", .str "Aegean")]])]))) =
      ([.log "\nList of Cat Breeds:", .log "1. Abyssinian", .log "2. Aegean"],
        none) :=
  claim6_breeds_numbering.1
    (fun _ => .response 200 (.jsonVal (.obj [("data", .arr
      [.obj [("breed", .str "Abyssinian")], .obj [("breed", .str "Aegean")]])])))
    200
    [("data", .arr [.obj [("breed", .str "Abyssinian")],
      .obj [("breed", .str "Aegean")]])]
    rfl rfl

/-- Whether a decoded JSON value has a `data` field holding an array — the
shape both `getMultipleFacts` and `getCatBreeds` assume. -/
def hasArrayDataField : Json → Bool
  | .obj fields =>
      match fields.lookup "data" with
      | some (.arr _) => true
      | _ => false
  | _ => false

/-- On a decoded value without an array `data` field, evaluating
`data.data.forEach` throws a `TypeError`, either at the `data` property
access (value is `null`) or at the `forEach` call. -/
theorem data_access_typeError (j : Json) (h : hasArrayDataField j = false) :
    (∃ m, getField j "data" = .error (.typeError m)) ∨
    (∃ v m, getField j "data" = .ok v ∧
      getForEachArray v = .error (.typeError m)) := by
  cases j with
  | null => exact .inl ⟨_, rfl⟩
  | bool b => exact .inr ⟨.undefined, _, rfl, rfl⟩
  | num n => exact .inr ⟨.undefined, _, rfl, rfl⟩
  | str s => exact .inr ⟨.undefined, _, rfl, rfl⟩
  | arr xs => exact .inr ⟨.undefined, _, rfl, rfl⟩
  | obj fields =>
      cases hl : fields.lookup "data" with
      | none => exact .inr ⟨.undefined, _, by simp [getField, hl], rfl⟩
      | some v =>
          cases v with
          | arr xs => simp [hasArrayDataField, hl] at h
          | null => exact .inr ⟨.val .null, _, by simp [getField, hl], rfl⟩
          | bool b => exact .inr ⟨.val (.bool b), _, by simp [getField, hl], rfl⟩
          | num n => exact .inr ⟨.val (.num n), _, by simp [getField, hl], rfl⟩
          | str s => exact .inr ⟨.val (.str s), _, by simp [getField, hl], rfl⟩
          | obj fs => exact .inr ⟨.val (.obj fs), _, by simp [getField, hl], rfl⟩

/-- Claim C10: when the body is valid JSON but the decoded value lacks an
array `data` field, `getMultipleFacts` (resp. `getCatBreeds`) first logs
its success header and only then hits the `TypeError`, which the `catch`
logs — the output is a success header followed by an error message. -/
theorem claim10_non_atomic_on_shape_mismatch :
    (∀ (net : String → FetchOutcome) (status : Nat) (j : Json),
      net multipleFactsUrl = .response status (.jsonVal j) →
      hasArrayDataField j = false →
      ∃ m, getMultipleFacts net =
        ([.log ("\n" ++ toString numberOfFacts ++ " Random Cat Facts:"),
          .errorLog "Error fetching multiple cat facts:" (.typeError m)], none)) ∧
    (∀ (net : String → FetchOutcome) (status : Nat) (j : Json),
      net breedsUrl = .response status (.jsonVal j) →
      hasArrayDataField j = false →
      ∃ m, getCatBreeds net =
        ([.log "\nList of Cat Breeds:",
          .errorLog "Error fetching cat breeds:" (.typeError m)], none)) := by
  constructor
  · intro net status j hnet hj
    rcases data_access_typeError j hj with ⟨m, hf⟩ | ⟨v, m, hv, hfe⟩
    · refine ⟨m, ?_⟩
      unfold getMultipleFacts getMultipleFactsTry
      rw [hnet]
      simp [hf, catchWith]
    · refine ⟨m, ?_⟩
      unfold getMultipleFacts getMultipleFactsTry
      rw [hnet]
      simp [hv, hfe, catchWith]
  · intro net status j hnet hj
    rcases data_access_typeError j hj with ⟨m, hf⟩ | ⟨v, m, hv, hfe⟩
    · refine ⟨m, ?_⟩
      unfold getCatBreeds getCatBreedsTry
      rw [hnet]
      simp [hf, catchWith]
    · refine ⟨m, ?_⟩
      unfold getCatBreeds getCatBreedsTry
      rw [hnet]
      simp [hv, hfe, catchWith]

/-- Witness for C10: a 200 response with body `\x7b\x7d` on each endpoint —
header printed, then a `TypeError` logged. -/
theorem claim10_non_atomic_on_shape_mismatch_witness :
    (∃ m, getMultipleFacts (fun _ => .response 200 (.jsonVal (.obj []))) =
      ([.log ("\n" ++ toString numberOfFacts ++ " Random Cat Facts:"),
        .errorLog "Error fetching multiple cat facts:" (.typeError m)], none)) ∧
    (∃ m, getCatBreeds (fun _ => .response 200 (.jsonVal (.obj []))) =
      ([.log "\nList of Cat Breeds:",
        .errorLog "Error fetching cat breeds:" (.typeError m)], none)) :=
  ⟨claim10_non_atomic_on_shape_mismatch.1
      (fun _ => .response 200 (.jsonVal (.obj []))) 200 (.obj []) rfl rfl,
   claim10_non_atomic_on_shape_mismatch.2
      (fun _ => .response 200 (.jsonVal (.obj []))) 200 (.obj []) rfl rfl⟩

/-- Identifier of one of the three concurrently launched calls
(src/index.js lines 21, 38, 54 launch them without awaiting each other). -/
inductive Tid where
  | t1 : Tid
  | t2 : Tid
  | t3 : Tid
  deriving DecidableEq

/-- An interleaved console trace of the three calls under a scheduler: the
schedule says which call emits its next line at each step (a scheduled call
with no output left contributes nothing).  The calls share no mutable
state, so each call's lines are fixed in advance by its own oracle. -/
def mergeRuns : List Tid → List ConsoleLine → List ConsoleLine → List ConsoleLine →
    List (Tid × ConsoleLine)
  | [], _, _, _ => []
  | .t1 :: σ, [], l2, l3 => mergeRuns σ [] l2 l3
  | .t1 :: σ, x :: l1, l2, l3 => (.t1, x) :: mergeRuns σ l1 l2 l3
  | .t2 :: σ, l1, [], l3 => mergeRuns σ l1 [] l3
  | .t2 :: σ, l1, x :: l2, l3 => (.t2, x) :: mergeRuns σ l1 l2 l3
  | .t3 :: σ, l1, l2, [] => mergeRuns σ l1 l2 []
  | .t3 :: σ, l1, l2, x :: l3 => (.t3, x) :: mergeRuns σ l1 l2 l3

/-- The sub-trace of an interleaved trace belonging to one call. -/
def projThread (i : Tid) (tr : List (Tid × ConsoleLine)) : List ConsoleLine :=
  tr.filterMap fun p => if p.1 = i then some p.2 else none

/-- Projecting past one trace entry: kept when it belongs to the call,
dropped otherwise. -/
theorem projThread_cons (i t : Tid) (x : ConsoleLine)
    (tr : List (Tid × ConsoleLine)) :
    projThread i ((t, x) :: tr) =
      if t = i then x :: projThread i tr else projThread i tr := by
  by_cases h : t = i <;> simp [projThread, h]

/-- Projection of a merged trace onto the first call: exactly its own first
`σ.count .t1` lines, untouched by the other two calls' lines. -/
theorem projThread_mergeRuns_t1 : ∀ (σ : List Tid) (l1 l2 l3 : List ConsoleLine),
    projThread .t1 (mergeRuns σ l1 l2 l3) = l1.take (σ.count .t1) := by
  intro σ
  induction σ with
  | nil => intro l1 l2 l3; simp [mergeRuns, projThread]
  | cons t σ ih =>
      intro l1 l2 l3
      cases t with
      | t1 =>
          cases l1 with
          | nil => simp [mergeRuns, ih, List.count_cons]
          | cons x l1 => simp [mergeRuns, projThread_cons, ih, List.count_cons]
      | t2 =>
          cases l2 with
          | nil => simp [mergeRuns, ih, List.count_cons]
          | cons x l2 => simp [mergeRuns, projThread_cons, ih, List.count_cons]
      | t3 =>
          cases l3 with
          | nil => simp [mergeRuns, ih, List.count_cons]
          | cons x l3 => simp [mergeRuns, projThread_cons, ih, List.count_cons]

/-- Projection of a merged trace onto the second call. -/
theorem projThread_mergeRuns_t2 : ∀ (σ : List Tid) (l1 l2 l3 : List ConsoleLine),
    projThread .t2 (mergeRuns σ l1 l2 l3) = l2.take (σ.count .t2) := by
  intro σ
  induction σ with
  | nil => intro l1 l2 l3; simp [mergeRuns, projThread]
  | cons t σ ih =>
      intro l1 l2 l3
      cases t with
      | t1 =>
          cases l1 with
          | nil => simp [mergeRuns, ih, List.count_cons]
          | cons x l1 => simp [mergeRuns, projThread_cons, ih, List.count_cons]
      | t2 =>
          cases l2 with
          | nil => simp [mergeRuns, ih, List.count_cons]
          | cons x l2 => simp [mergeRuns, projThread_cons, ih, List.count_cons]
      | t3 =>
          cases l3 with
          | nil => simp [mergeRuns, ih, List.count_cons]
          | cons x l3 => simp [mergeRuns, projThread_cons, ih, List.count_cons]

/-- Projection of a merged trace onto the third call. -/
theorem projThread_mergeRuns_t3 : ∀ (σ : List Tid) (l1 l2 l3 : List ConsoleLine),
    projThread .t3 (mergeRuns σ l1 l2 l3) = l3.take (σ.count .t3) := by
  intro σ
  induction σ with
  | nil => intro l1 l2 l3; simp [mergeRuns, projThread]
  | cons t σ ih =>
      intro l1 l2 l3
      cases t with
      | t1 =>
          cases l1 with
          | nil => simp [mergeRuns, ih, List.count_cons]
          | cons x l1 => simp [mergeRuns, projThread_cons, ih, List.count_cons]
      | t2 =>
          cases l2 with
          | nil => simp [mergeRuns, ih, List.count_cons]
          | cons x l2 => simp [mergeRuns, projThread_cons, ih, List.count_cons]
      | t3 =>
          cases l3 with
          | nil => simp [mergeRuns, ih, List.count_cons]
          | cons x l3 => simp [mergeRuns, projThread_cons, ih, List.count_cons]

/-- Claim C8: the three operations share no mutable state — the only
cross-operation binding, `baseUrl`, is a constant — so under any scheduler
that lets each call finish, the sub-trace belonging to each call equals that
call's own standalone run, determined solely by its own oracle and
unaffected by how (or whether) the other two ran. -/
theorem claim8_no_shared_state (σ : List Tid)
    (net1 net2 net3 : String → FetchOutcome) :
    ((getRandomFact net1).1.length ≤ σ.count .t1 →
      projThread .t1 (mergeRuns σ (getRandomFact net1).1
        (getMultipleFacts net2).1 (getCatBreeds net3).1) =
        (getRandomFact net1).1) ∧
    ((getMultipleFacts net2).1.length ≤ σ.count .t2 →
      projThread .t2 (mergeRuns σ (getRandomFact net1).1
        (getMultipleFacts net2).1 (getCatBreeds net3).1) =
        (getMultipleFacts net2).1) ∧
    ((getCatBreeds net3).1.length ≤ σ.count .t3 →
      projThread .t3 (mergeRuns σ (getRandomFact net1).1
        (getMultipleFacts net2).1 (getCatBreeds net3).1) =
        (getCatBreeds net3).1) := by
  refine ⟨fun h => ?_, fun h => ?_, fun h => ?_⟩
  · rw [projThread_mergeRuns_t1]
    exact List.take_of_length_le h
  · rw [projThread_mergeRuns_t2]
    exact List.take_of_length_le h
  · rw [projThread_mergeRuns_t3]
    exact List.take_of_length_le h

/-- Witness for C8: under the schedule `[t1, t2, t3]` with each request
refused, the first call's sub-trace is its own standalone run. -/
theorem claim8_no_shared_state_witness :
    projThread .t1 (mergeRuns [.t1, .t2, .t3]
      (getRandomFact fun _ => .netError "refused").1
      (getMultipleFacts fun _ => .netError "refused").1
      (getCatBreeds fun _ => .netError "refused").1) =
      (getRandomFact fun _ => .netError "refused").1 :=
  (claim8_no_shared_state [.t1, .t2, .t3] (fun _ => .netError "refused")
    (fun _ => .netError "refused") (fun _ => .netError "refused")).1 (by decide)

end CatFacts
